import Mathlib

/-!
# Verification of the twitch-watcher daemon (src/main.rs)

Shallow embedding of the token-caching authentication layer and the
polling/diffing loop of `src/main.rs`, together with theorems settling
the specification claims.

Conventions:
* UTC instants (`chrono::DateTime<Utc>`) are modelled as whole seconds
  (`Int`); `Utc::now()` becomes an explicit `now : Time` argument.
* The serde_json layer is modelled at the level of JSON values: reading
  the cache file yields either an I/O error, content that is not JSON,
  or a JSON value; `serde_json::to_vec`/`from_str` become `encodeAuth`
  and `decodeAuth` on that JSON representation.
* Network effects (`get_fresh_token`'s HTTP exchange) are modelled by
  passing in the response data (`access_token`, `expires_in`).
-/

namespace TwitchWatcher

/-- UTC instants in whole seconds, the granularity used by the source
(`Duration::seconds(5)`, `expires_in` seconds). -/
abbrev Time := Int

/-- `struct TwitchAuth { client_id, access_token, expires_at }`
(src/main.rs lines 48-53), the persisted auth token. -/
structure TwitchAuth where
  client_id : String
  access_token : String
  expires_at : Time
deriving DecidableEq, Repr

/-- JSON values, as far as the cached-token file needs them. -/
inductive Json where
  | str (s : String)
  | num (n : Int)
  | obj (fields : List (String × Json))

/-- Field lookup in a JSON object (first match wins, as in serde). -/
def jsonLookup (fields : List (String × Json)) (k : String) : Option Json :=
  match fields with
  | [] => none
  | (k', v) :: rest => if k' = k then some v else jsonLookup rest k

/-- Serialization of `TwitchAuth` (`#[derive(Serialize)]`): an object with
the three fields in declaration order. -/
def encodeAuth (a : TwitchAuth) : Json :=
  .obj [("client_id", .str a.client_id),
        ("access_token", .str a.access_token),
        ("expires_at", .num a.expires_at)]

def asString : Json → Option String
  | .str s => some s
  | _ => none

def asNum : Json → Option Int
  | .num n => some n
  | _ => none

/-- Deserialization of `TwitchAuth` (`#[derive(Deserialize)]`): all three
fields must be present with the right types. -/
def decodeAuth (j : Json) : Option TwitchAuth :=
  match j with
  | .obj fields =>
    match jsonLookup fields "client_id", jsonLookup fields "access_token",
          jsonLookup fields "expires_at" with
    | some c, some t, some e =>
      match asString c, asString t, asNum e with
      | some c, some t, some e =>
        some { client_id := c, access_token := t, expires_at := e }
      | _, _, _ => none
    | _, _, _ => none
  | _ => none

/-- Outcome of `std::fs::read_to_string` on the cache file followed by
`serde_json::from_str` at the JSON level: the file may be absent, may be
unreadable, may hold text that is not JSON, or may hold a JSON value. -/
inductive CacheRead where
  | missingFile
  | unreadable
  | notJson
  | jsonContent (j : Json)

/-- `TwitchClient::get_cached_token` (src/main.rs lines 122-149).
`projectDirs` models the `directories::ProjectDirs::from` outcome inside
`get_cache_token_path` (lines 151-158): `none` means the project
directories cannot be constructed, which the `?` on line 123 propagates
as an error.  Every read/parse outcome degrades to `none`; a parsed
token is returned only if `now < expires_at` (line 130 checks
`Utc::now() >= auth.expires_at`). -/
def getCachedToken (projectDirs : Option Unit) (read : CacheRead) (now : Time) :
    Except String (Option TwitchAuth) :=
  match projectDirs with
  | none => .error "cannot construct project directories"
  | some _ =>
    .ok (match read with
      | .missingFile => none
      | .unreadable => none
      | .notJson => none
      | .jsonContent j =>
        match decodeAuth j with
        | none => none
        | some auth => if now ≥ auth.expires_at then none else some auth)

/-- `TwitchClient::cache_token` (src/main.rs lines 160-169): writes the
serialized token, overwriting any prior content.  The value returned is
the cache-file content after the write. -/
def cacheToken (auth : TwitchAuth) : CacheRead :=
  .jsonContent (encodeAuth auth)

/-- `TwitchClient::get_fresh_token` (src/main.rs lines 103-120): builds
the token from the env `client_id` and the token endpoint's response
(`access_token`, `expires_in`), with `expires_at = now + expires_in`. -/
def getFreshToken (client_id : String) (access_token : String)
    (expires_in : Int) (now : Time) : TwitchAuth :=
  { client_id := client_id, access_token := access_token,
    expires_at := now + expires_in }

/-- The refresh condition of `TwitchClient::ensure_token`
(src/main.rs line 77): `self.auth.expires_at > Utc::now() - Duration::seconds(5)`. -/
def refreshCondition (auth : TwitchAuth) (now : Time) : Bool :=
  decide (auth.expires_at > now - 5)

/-- `TwitchClient::ensure_token` (src/main.rs lines 76-83): if the
condition holds, a fresh token replaces the current one and is cached.
Returns the resulting current token and whether a fresh-token request
was issued. -/
def ensureToken (auth : TwitchAuth) (now : Time) (fresh : TwitchAuth) :
    TwitchAuth × Bool :=
  if refreshCondition auth now then (fresh, true) else (auth, false)

/-- Operations the auth layer performs against its collaborators, in
order of occurrence. -/
inductive AuthEvent where
  | cacheLoad
  | freshTokenRequest
  | cacheStore
deriving DecidableEq, Repr

/-- `TwitchClient::get_token` (src/main.rs lines 88-101): load the cache;
on a hit use the cached token, on a miss fetch a fresh one and cache it.
Returns the token, the ordered list of operations performed, and the
cache-file content afterwards.  The `.error` arm is unreachable when the
project directories exist (it mirrors the `?` propagation and returns
the inputs unchanged). -/
def getToken (read : CacheRead) (now : Time) (fresh : TwitchAuth) :
    TwitchAuth × List AuthEvent × CacheRead :=
  match getCachedToken (some ()) read now with
  | .error _ => (fresh, [], read)
  | .ok (some auth) => (auth, [.cacheLoad], read)
  | .ok none =>
    (fresh, [.cacheLoad, .freshTokenRequest, .cacheStore], cacheToken fresh)

/-- `struct UserResponseData { id, login, display_name }`
(src/main.rs lines 41-46). -/
structure UserResponseData where
  id : String
  login : String
  display_name : String
deriving DecidableEq, Repr

/-- `struct StreamResponseData` (src/main.rs lines 30-39).  Only
`user_id` and `viewer_count` are consumed past a poll cycle, but all
fields are carried. -/
structure StreamResponseData where
  id : String
  user_id : String
  user_name : String
  game_id : String
  game_name : String
  viewer_count : Nat
  started_at : Time
deriving DecidableEq, Repr

/-- Insertion into a `BTreeMap<String, V>` modelled as a list of
key-value pairs kept sorted by key; an equal key overwrites. -/
def btreeInsert {V : Type} (k : String) (v : V) :
    List (String × V) → List (String × V)
  | [] => [(k, v)]
  | (k', v') :: rest =>
    if k < k' then (k, v) :: (k', v') :: rest
    else if k = k' then (k, v) :: rest
    else (k', v') :: btreeInsert k v rest

/-- `collect::<BTreeMap<_, _>>()`: left-to-right insertion, later
occurrences of a key overwriting earlier ones. -/
def btreeOfList {V : Type} (l : List (String × V)) : List (String × V) :=
  l.foldl (fun m p => btreeInsert p.1 p.2 m) []

/-- `BTreeMap::get`. -/
def btreeGet {V : Type} (m : List (String × V)) (k : String) : Option V :=
  match m with
  | [] => none
  | (k', v) :: rest => if k' = k then some v else btreeGet rest k

/-- Building a viewer-count snapshot from fetched stream records
(src/main.rs lines 227-231 and 262-265):
`data.iter().map(|d| (d.user_id.clone(), d.viewer_count)).collect()`. -/
def buildSnapshot (data : List StreamResponseData) : List (String × Nat) :=
  btreeOfList (data.map fun d => (d.user_id, d.viewer_count))

/-- `viewer_counts.get(&user.id).unwrap_or(&0)` (src/main.rs lines 235,
268-269): a missing key means viewer count 0. -/
def countOf (m : List (String × Nat)) (k : String) : Nat :=
  (btreeGet m k).getD 0

/-- `users.iter().map(|u| (u.id.clone(), u)).collect::<BTreeMap<_,_>>()`
(src/main.rs line 222). -/
def userMapOf (users : List UserResponseData) :
    List (String × UserResponseData) :=
  btreeOfList (users.map fun u => (u.id, u))

/-- A desktop notification: `summary` is the title, `body` the text
(`notify_rust::Notification`). -/
structure Notif where
  summary : String
  body : String
deriving DecidableEq, Repr

/-- Body of a per-user change notification (src/main.rs line 274):
`format!("Updated viewer count: {}", current_count)`. -/
def updateBody (current_count : Nat) : String :=
  "Updated viewer count: " ++ toString current_count

/-- The diff-and-notify pass of one steady-state iteration
(src/main.rs lines 267-277): iterate `user_map` in `BTreeMap` order,
look up previous and current counts (absent key meaning 0), and emit a
notification when they differ, with the display name as summary and
`updateBody` of the new count as body. -/
def pollCycleNotifs (user_map : List (String × UserResponseData))
    (prev curr : List (String × Nat)) : List Notif :=
  match user_map with
  | [] => []
  | (user_id, user) :: rest =>
    let prev_count := countOf prev user_id
    let current_count := countOf curr user_id
    (if prev_count ≠ current_count then
       [{ summary := user.display_name, body := updateBody current_count }]
     else []) ++ pollCycleNotifs rest prev curr

/-- One line of the startup "now monitoring" notification
(src/main.rs lines 234-243):
count 0 renders "(no viewer)", count 1 renders "(1 viewer)", any other
count renders "(count viewer)", prefixed with the display name. -/
def initLine (user : UserResponseData) (count : Nat) : String :=
  if count = 0 then user.display_name ++ " (no viewer)"
  else if count = 1 then user.display_name ++ " (1 viewer)"
  else user.display_name ++ " (" ++ toString count ++ " viewer)"

/-- The full startup message body (src/main.rs lines 234-243): one
`initLine` per resolved user, joined with newlines. -/
def initMsg (users : List UserResponseData)
    (viewer_counts : List (String × Nat)) : String :=
  String.intercalate "\n"
    (users.map fun user => initLine user (countOf viewer_counts user.id))

/-- Observable steps of the main loop, for ordering claims. -/
inductive LoopEvent where
  | resolveUsers
  | fetchStreams
  | buildSnap
  | emitNotifs
  | sleepTenSeconds
deriving DecidableEq, Repr

/-- The startup phase (src/main.rs lines 221-254): resolve users, fetch
streams, build the initial snapshot, emit the aggregate notification. -/
def startupTrace : List LoopEvent :=
  [.resolveUsers, .fetchStreams, .buildSnap, .emitNotifs]

/-- One iteration of the `loop` (src/main.rs lines 260-281): fetch
streams, build the current snapshot, diff and notify, then sleep for the
fixed 10-second interval (`std::thread::sleep(d)` is the last statement
of the loop body). -/
def iterationTrace : List LoopEvent :=
  [.fetchStreams, .buildSnap, .emitNotifs, .sleepTenSeconds]

/-- The steady-state trace after `n` iterations. -/
def steadyTrace (n : Nat) : List LoopEvent :=
  (List.replicate n iterationTrace).flatten

/-- Startup followed by `n` steady-state iterations. -/
def fullTrace (n : Nat) : List LoopEvent :=
  startupTrace ++ steadyTrace n

/-- An outbound helix request: URL, `Client-Id` header, bearer token,
query parameters. -/
structure ApiRequest where
  url : String
  clientIdHeader : String
  bearerToken : String
  query : List (String × String)
deriving DecidableEq, Repr

/-- `struct TwitchClient` (src/main.rs lines 55-60): the env-derived
`client_id`/`client_secret` and the current auth token. -/
structure TwitchClient where
  client_id : String
  client_secret : String
  auth : TwitchAuth
deriving DecidableEq, Repr

/-- `TwitchClient::get_streams_data` (src/main.rs lines 171-185):
`ensure_token` first (which may install the fresh token built by
`get_fresh_token` from the env `client_id` and the endpoint response),
then the request with `Client-Id` and bearer taken from `self.auth`.
Returns the request and the updated client. -/
def getStreamsRequest (c : TwitchClient) (now : Time)
    (freshAccess : String) (freshExpiresIn : Int)
    (user_logins : List String) : ApiRequest × TwitchClient :=
  let fresh := getFreshToken c.client_id freshAccess freshExpiresIn now
  let auth := (ensureToken c.auth now fresh).1
  ({ url := "https://api.twitch.tv/helix/streams",
     clientIdHeader := auth.client_id,
     bearerToken := auth.access_token,
     query := user_logins.map fun u => ("user_login", u) },
   { c with auth := auth })

/-- `TwitchClient::get_users` (src/main.rs lines 187-201): same shape as
`getStreamsRequest`, targeting the users endpoint with `login` query
parameters. -/
def getUsersRequest (c : TwitchClient) (now : Time)
    (freshAccess : String) (freshExpiresIn : Int)
    (user_logins : List String) : ApiRequest × TwitchClient :=
  let fresh := getFreshToken c.client_id freshAccess freshExpiresIn now
  let auth := (ensureToken c.auth now fresh).1
  ({ url := "https://api.twitch.tv/helix/users",
     clientIdHeader := auth.client_id,
     bearerToken := auth.access_token,
     query := user_logins.map fun u => ("login", u) },
   { c with auth := auth })

/-! ## Helper lemmas -/

theorem decodeAuth_encodeAuth (a : TwitchAuth) :
    decodeAuth (encodeAuth a) = some a := rfl

theorem getCachedToken_ok (read : CacheRead) (now : Time) :
    ∃ r, getCachedToken (some ()) read now = Except.ok r := by
  cases read <;> exact ⟨_, rfl⟩

theorem getToken_eq (read : CacheRead) (now : Time) (fresh : TwitchAuth)
    (r : Option TwitchAuth)
    (h : getCachedToken (some ()) read now = .ok r) :
    getToken read now fresh =
      match r with
      | some auth => (auth, [.cacheLoad], read)
      | none =>
        (fresh, [.cacheLoad, .freshTokenRequest, .cacheStore], cacheToken fresh) := by
  simp only [getToken, h]
  cases r <;> rfl

theorem pollCycleNotifs_eq_filter_map
    (user_map : List (String × UserResponseData))
    (prev curr : List (String × Nat)) :
    pollCycleNotifs user_map prev curr =
      (user_map.filter fun p => countOf prev p.1 ≠ countOf curr p.1).map
        (fun p => { summary := p.2.display_name,
                    body := updateBody (countOf curr p.1) }) := by
  induction user_map with
  | nil => rfl
  | cons hd tl ih =>
    obtain ⟨uid, u⟩ := hd
    by_cases h : countOf prev uid = countOf curr uid <;>
      simp [pollCycleNotifs, List.filter_cons, h, ih, decide_not]

theorem btreeGet_insert_ne {V : Type} (k q : String) (h : k ≠ q) (v : V)
    (m : List (String × V)) :
    btreeGet (btreeInsert k v m) q = btreeGet m q := by
  induction m with
  | nil => simp [btreeInsert, btreeGet, h]
  | cons hd tl ih =>
    obtain ⟨k0, v0⟩ := hd
    by_cases h1 : k < k0
    · simp [btreeInsert, h1, btreeGet, h]
    · by_cases h2 : k = k0
      · subst h2
        simp [btreeInsert, h1, btreeGet, h]
      · simp [btreeInsert, h1, h2, btreeGet, ih]

theorem btreeGet_foldl_insert_none {V : Type} (q : String) :
    ∀ (l : List (String × V)) (acc : List (String × V)),
      (∀ p ∈ l, p.1 ≠ q) → btreeGet acc q = none →
      btreeGet (l.foldl (fun m p => btreeInsert p.1 p.2 m) acc) q = none := by
  intro l
  induction l with
  | nil =>
    intro acc _ hacc
    simpa using hacc
  | cons hd tl ih =>
    intro acc hl hacc
    simp only [List.foldl_cons]
    refine ih _ (fun p hp => hl p (List.mem_cons_of_mem _ hp)) ?_
    rw [btreeGet_insert_ne hd.1 q (hl hd (List.mem_cons_self _ _)) hd.2 acc]
    exact hacc

theorem steadyTrace_succ (n : Nat) :
    steadyTrace (n + 1) = iterationTrace ++ steadyTrace n := rfl

/-! ## Claim theorems -/

/-- C1: the claim states that `ensure_token` issues no fresh-token request
when the remaining lifetime exceeds the safety margin (5 s) and exactly one
when it is at or below the margin.  The source condition on line 77,
`expires_at > now - 5s`, evaluates the opposite way: with a token whose
remaining lifetime is 100 s (well above the margin) a fresh-token request
is issued, while with a token expired 100 s earlier (remaining lifetime
far below the margin) none is issued. -/
theorem c1_ensure_token_condition_inverted :
    ((⟨"cid", "tok", 100⟩ : TwitchAuth).expires_at - 0 > 5
      ∧ (ensureToken ⟨"cid", "tok", 100⟩ 0 ⟨"cid", "tok2", 200⟩).2 = true)
    ∧ ((⟨"cid", "tok", -100⟩ : TwitchAuth).expires_at - 0 ≤ 5
      ∧ (ensureToken ⟨"cid", "tok", -100⟩ 0 ⟨"cid", "tok2", 200⟩).2 = false) := by
  decide

/-- C2: for a user map iterated in ascending user-id order, the
steady-state diff pass emits exactly one notification per tracked user
whose previous and current counts differ (missing key meaning 0), in
ascending user-id order, with the display name as title and the new
count rendered in the body. -/
theorem c2_diff_notifications (user_map : List (String × UserResponseData))
    (prev curr : List (String × Nat))
    (hsorted : (user_map.map Prod.fst).Sorted (· < ·)) :
    pollCycleNotifs user_map prev curr =
      (user_map.filter fun p => countOf prev p.1 ≠ countOf curr p.1).map
        (fun p => { summary := p.2.display_name,
                    body := updateBody (countOf curr p.1) })
    ∧ ((user_map.filter fun p =>
          countOf prev p.1 ≠ countOf curr p.1).map Prod.fst).Sorted (· < ·) :=
  ⟨pollCycleNotifs_eq_filter_map user_map prev curr,
   hsorted.sublist ((List.filter_sublist _).map Prod.fst)⟩

/-- Witness for C2 on a concrete two-user map where only the first user
changed. -/
theorem c2_diff_notifications_witness :
    pollCycleNotifs
        [("1", (⟨"1", "alice", "Alice"⟩ : UserResponseData)),
         ("2", ⟨"2", "bob", "Bob"⟩)]
        [("1", 5), ("2", 3)] [("2", 3)] =
      (([("1", (⟨"1", "alice", "Alice"⟩ : UserResponseData)),
         ("2", ⟨"2", "bob", "Bob"⟩)]).filter fun p =>
          countOf [("1", 5), ("2", 3)] p.1 ≠ countOf [("2", 3)] p.1).map
        (fun p => { summary := p.2.display_name,
                    body := updateBody (countOf [("2", 3)] p.1) })
    ∧ ((([("1", (⟨"1", "alice", "Alice"⟩ : UserResponseData)),
         ("2", ⟨"2", "bob", "Bob"⟩)]).filter fun p =>
          countOf [("1", 5), ("2", 3)] p.1 ≠ countOf [("2", 3)] p.1).map
        Prod.fst).Sorted (· < ·) :=
  c2_diff_notifications _ _ _ (by
    simp [List.sorted_cons]
    decide)

/-- C3: with the project directories in place, `get_cached_token` returns
`Ok` for every read and parse outcome of the cache file: no file-system
or deserialization failure reaches the caller as an error. -/
theorem c3_load_never_errors (read : CacheRead) (now : Time) :
    ∃ r, getCachedToken (some ()) read now = Except.ok r :=
  getCachedToken_ok read now

/-- C4: `get_cached_token` returns absent when the cache file is missing,
unreadable, not deserializable, or holds a token whose expiry is at or
before the current time. -/
theorem c4_load_absent_cases (now : Time) :
    getCachedToken (some ()) .missingFile now = .ok none
    ∧ getCachedToken (some ()) .unreadable now = .ok none
    ∧ getCachedToken (some ()) .notJson now = .ok none
    ∧ (∀ j : Json, decodeAuth j = none →
        getCachedToken (some ()) (.jsonContent j) now = .ok none)
    ∧ (∀ auth : TwitchAuth, auth.expires_at ≤ now →
        getCachedToken (some ()) (.jsonContent (encodeAuth auth)) now
          = .ok none) := by
  refine ⟨rfl, rfl, rfl, ?_, ?_⟩
  · intro j hj
    simp [getCachedToken, hj]
  · intro auth h
    simp [getCachedToken, decodeAuth_encodeAuth, ge_iff_le, h]

/-- Witness for C4 at a token that expired exactly now. -/
theorem c4_load_absent_cases_witness :
    getCachedToken (some ())
        (.jsonContent (encodeAuth ⟨"cid", "tok", 0⟩)) 0 = .ok none :=
  (c4_load_absent_cases 0).2.2.2.2 ⟨"cid", "tok", 0⟩ (by decide)

/-- C5: storing a token whose expiry is strictly in the future and then
loading returns that same token unchanged. -/
theorem c5_store_load_roundtrip (auth : TwitchAuth) (now : Time)
    (h : now < auth.expires_at) :
    getCachedToken (some ()) (cacheToken auth) now = .ok (some auth) := by
  simp [getCachedToken, cacheToken, decodeAuth_encodeAuth, not_le.mpr h]

/-- Witness for C5 with a token expiring 10 s in the future. -/
theorem c5_store_load_roundtrip_witness :
    getCachedToken (some ()) (cacheToken ⟨"cid", "tok", 10⟩) 0
      = .ok (some ⟨"cid", "tok", 10⟩) :=
  c5_store_load_roundtrip ⟨"cid", "tok", 10⟩ 0 (by decide)

/-- C6 counterexample: the first steady-state event after the startup
phase is the stream fetch, not the 10-second sleep, and no sleep event
occurs anywhere before it (the startup trace contains none): the claimed
sleep-then-fetch order is false for the first iteration. -/
theorem c6_sleep_is_last_not_first :
    (steadyTrace 1).head? = some LoopEvent.fetchStreams
    ∧ ((fullTrace 1).drop startupTrace.length).head?
        = some LoopEvent.fetchStreams
    ∧ LoopEvent.sleepTenSeconds ∉ fullTrace 0 := by decide

/-- C6 amended: every steady-state iteration performs fetch, snapshot
build, diff/notify, and then the 10-second sleep, in that order (the
sleep ends the iteration rather than starting it); consequently the
first steady-state fetch happens immediately after startup with no
preceding sleep, and every later fetch is preceded by a sleep. -/
theorem c6_iteration_order (n : Nat) :
    (steadyTrace n).length = 4 * n
    ∧ (∀ i, i < n → ((steadyTrace n).drop (4 * i)).take 4 =
        [LoopEvent.fetchStreams, LoopEvent.buildSnap, LoopEvent.emitNotifs,
         LoopEvent.sleepTenSeconds])
    ∧ ((fullTrace (n + 1)).drop startupTrace.length).head?
        = some LoopEvent.fetchStreams := by
  refine ⟨?_, ?_, rfl⟩
  · induction n with
    | zero => rfl
    | succ m ih =>
      rw [steadyTrace_succ]
      simp [iterationTrace, ih]
      omega
  · induction n with
    | zero =>
      intro i hi
      exact absurd hi (Nat.not_lt_zero i)
    | succ m ih =>
      intro i hi
      rw [steadyTrace_succ]
      cases i with
      | zero => rfl
      | succ k =>
        have h4 : 4 * (k + 1) = iterationTrace.length + 4 * k := by
          simp [iterationTrace]
          omega
        rw [h4, List.drop_append]
        exact ih k (by omega)

/-- Witness for C6 amended at the first iteration of a two-iteration
trace. -/
theorem c6_iteration_order_witness :
    ((steadyTrace 2).drop (4 * 1)).take 4 =
      [LoopEvent.fetchStreams, LoopEvent.buildSnap, LoopEvent.emitNotifs,
       LoopEvent.sleepTenSeconds] :=
  (c6_iteration_order 2).2.1 1 (by decide)

/-- C7: the startup line renders count 0 as "no viewer", count 1 as
"1 viewer", and any count above 1 as the number followed by the
never-pluralized word "viewer", prefixed by the display name. -/
theorem c7_viewer_wording (user : UserResponseData) :
    initLine user 0 = user.display_name ++ " (no viewer)"
    ∧ initLine user 1 = user.display_name ++ " (1 viewer)"
    ∧ ∀ n : Nat, 1 < n →
        initLine user n
          = user.display_name ++ " (" ++ toString n ++ " viewer)" := by
  refine ⟨rfl, rfl, ?_⟩
  intro n hn
  unfold initLine
  rw [if_neg (by omega), if_neg (by omega)]

/-- Witness for C7 at count 2. -/
theorem c7_viewer_wording_witness :
    initLine ⟨"1", "alice", "Alice"⟩ 2
      = (⟨"1", "alice", "Alice"⟩ : UserResponseData).display_name
          ++ " (" ++ toString 2 ++ " viewer)" :=
  (c7_viewer_wording ⟨"1", "alice", "Alice"⟩).2.2 2 (by decide)

/-- C8: a tracked user id absent from the fetched stream records gets
viewer count 0 in the built snapshot, for every fetched set including
the empty one. -/
theorem c8_absent_means_zero (data : List StreamResponseData) (uid : String)
    (h : ∀ d ∈ data, d.user_id ≠ uid) :
    countOf (buildSnapshot data) uid = 0 := by
  have hnone : btreeGet ((data.map fun d => (d.user_id, d.viewer_count)).foldl
      (fun m p => btreeInsert p.1 p.2 m) []) uid = none := by
    refine btreeGet_foldl_insert_none uid _ _ ?_ rfl
    intro p hp
    obtain ⟨d, hd, rfl⟩ := List.mem_map.mp hp
    exact h d hd
  simp [countOf, buildSnapshot, btreeOfList, hnone]

/-- Witness for C8: one live stream for user "1", user "2" absent. -/
theorem c8_absent_means_zero_witness :
    countOf
      (buildSnapshot
        [(⟨"s", "1", "A", "g", "G", 7, 0⟩ : StreamResponseData)]) "2" = 0 :=
  c8_absent_means_zero _ "2" (by decide)

/-- C9: `get_token` attempts the cache load first; on a hit it returns
the cached token having performed no fresh fetch and no store; on a miss
it performs exactly one fresh-token request followed by a cache store
(the written file replacing whatever was there, corrupt or not) and
returns the fresh token. -/
theorem c9_construction (read : CacheRead) (now : Time) (fresh : TwitchAuth) :
    (getToken read now fresh).2.1.head? = some AuthEvent.cacheLoad
    ∧ (∀ auth, getCachedToken (some ()) read now = .ok (some auth) →
        getToken read now fresh = (auth, [.cacheLoad], read))
    ∧ (getCachedToken (some ()) read now = .ok none →
        getToken read now fresh =
          (fresh, [.cacheLoad, .freshTokenRequest, .cacheStore],
            cacheToken fresh)) := by
  obtain ⟨r, hr⟩ := getCachedToken_ok read now
  refine ⟨?_, ?_, ?_⟩
  · rw [getToken_eq read now fresh r hr]
    cases r <;> rfl
  · intro auth h
    rw [getToken_eq read now fresh (some auth) h]
  · intro h
    rw [getToken_eq read now fresh none h]

/-- Witness for C9 on a corrupt (non-JSON) cache file. -/
theorem c9_construction_witness :
    getToken CacheRead.notJson 0 ⟨"cid", "tok", 10⟩ =
      (⟨"cid", "tok", 10⟩,
        [AuthEvent.cacheLoad, AuthEvent.freshTokenRequest,
         AuthEvent.cacheStore],
        cacheToken ⟨"cid", "tok", 10⟩) :=
  (c9_construction CacheRead.notJson 0 ⟨"cid", "tok", 10⟩).2.2 rfl

/-- C10: both outbound requests send as `Client-Id` header the
`client_id` field of the current auth token (the one `ensure_token`
leaves in place), and there is a client state — a cached token carrying
a different `client_id` that `ensure_token` keeps — for which that
header differs from the env-derived client identifier. -/
theorem c10_client_id_header (c : TwitchClient) (now : Time)
    (freshAccess : String) (freshExpiresIn : Int) (logins : List String) :
    ((getStreamsRequest c now freshAccess freshExpiresIn logins).1.clientIdHeader
        = (ensureToken c.auth now
            (getFreshToken c.client_id freshAccess freshExpiresIn now)).1.client_id
      ∧ (getUsersRequest c now freshAccess freshExpiresIn logins).1.clientIdHeader
        = (ensureToken c.auth now
            (getFreshToken c.client_id freshAccess freshExpiresIn now)).1.client_id)
    ∧ ∃ (c' : TwitchClient) (now' : Time) (fa : String) (fe : Int)
        (ls : List String),
        (getStreamsRequest c' now' fa fe ls).1.clientIdHeader
          ≠ c'.client_id := by
  refine ⟨⟨rfl, rfl⟩,
    ⟨⟨"envID", "secret", ⟨"cachedID", "tok", -100⟩⟩, 0, "fa", 100, [], ?_⟩⟩
  decide

end TwitchWatcher
